import Mathlib

/-!
Verification development for the music-recognition backend (src/musicapp1/app.py).

The backend is a single Flask handler plus one helper.  We embed it shallowly:

* decoded JSON values (what `response.json()` / `json.loads` yield) become `JVal`;
* Python exceptions that can be raised inside the handler's `try` block become
  `PyExn`, and fallible code returns `Except PyExn _`;
* the two external services are inputs: the fingerprinting call's outcome is an
  `AuddOutcome` (HTTP status + decoded body, or a raised exception) and the
  generative-text call's outcome is a `GenaiOutcome`;
* the handler `recognize_endpoint` and the helper `get_song_info_from_gemini`
  are translated line by line from the source.
-/

/-- A decoded JSON value, as produced by Python's `json` module. -/
inductive JVal where
  | null
  | bool (b : Bool)
  | num (n : Int)
  | str (s : String)
  | arr (xs : List JVal)
  | obj (kvs : List (String × JVal))

/-- Shorthand for a JSON string value. -/
def jstr (s : String) : JVal := JVal.str s

/-- Python exceptions that the handler's `try` block can see.
`httpError` is `requests.exceptions.HTTPError` (carrying the upstream HTTP
status code); the remaining constructors carry the `str(e)` rendering used by
the handler's generic message.  (CPython wraps the key of a `KeyError` in
quotes when rendering it; we keep just the key itself — no theorem below
depends on the exact rendering of these messages.) -/
inductive PyExn where
  | httpError (code : Nat)
  | keyError (key : String)
  | typeError (msg : String)
  | attributeError (msg : String)
  | unboundLocalError (name : String)
deriving DecidableEq

/-- `str(e)` for the exceptions above, as interpolated into the handler's
generic error message. -/
def exnStr : PyExn → String
  | .httpError code => "HTTP error " ++ toString code
  | .keyError k => k
  | .typeError m => m
  | .attributeError m => m
  | .unboundLocalError n =>
      "cannot access local variable " ++ n ++ " where it is not associated with a value"

/-- Does the exception match `requests.exceptions.HTTPError`? -/
def isHttpExn : PyExn → Bool
  | .httpError _ => true
  | _ => false

/-- Lookup in a decoded JSON object.  `json.loads` keeps the last occurrence
of a duplicated key, so we return the last binding. -/
def dictGet (kvs : List (String × JVal)) (key : String) : Option JVal :=
  ((kvs.filter (fun kv => kv.1 == key)).getLast?).map (fun kv => kv.2)

/-- Python truthiness of a decoded JSON value (`None`, `False`, `0`, `""`,
`[]` and `{ }` are falsy). -/
def truthy : JVal → Bool
  | .null => false
  | .bool b => b
  | .num n => n != 0
  | .str s => !s.isEmpty
  | .arr xs => !xs.isEmpty
  | .obj kvs => !kvs.isEmpty

/-- Truthiness of `d.get(k)`: `None` (absent) is falsy. -/
def truthyO : Option JVal → Bool
  | none => false
  | some v => truthy v

/-- Python `v[k]` on a decoded JSON value: `KeyError` on a missing key,
`TypeError` when `v` is not a dict. -/
def getItem (v : JVal) (k : String) : Except PyExn JVal :=
  match v with
  | .obj kvs =>
    match dictGet kvs k with
    | some w => .ok w
    | none => .error (.keyError k)
  | _ => .error (.typeError "value is not subscriptable by a string key")

/-- Chained subscripting `v[k1][k2]...`. -/
def getPath (v : JVal) : List String → Except PyExn JVal
  | [] => .ok v
  | k :: ks =>
    match getItem v k with
    | .ok w => getPath w ks
    | .error e => .error e

/-- Python `str()` of a decoded JSON value, as interpolated by the f-strings
in the handler.  Containers are abbreviated (Python would print their repr);
no theorem below interpolates a container. -/
def pyStrOf : JVal → String
  | .null => "None"
  | .bool true => "True"
  | .bool false => "False"
  | .num n => toString n
  | .str s => s
  | .arr _ => "[...]"
  | .obj _ => "(dict)"

/-! ### Python string helpers

`str.strip`, `str.lstrip` and `str.rstrip` with an argument strip a SET of
characters, not a prefix/suffix — the source relies on
`.lstrip('```json')` / `.rstrip('```')`, which strip any run of the
characters backtick, `j`, `s`, `o`, `n` (resp. backtick). -/

/-- The character set Python's no-argument `strip()` removes. -/
def pyWhitespace : List Char := [' ', '\t', '\n', '\r', '\x0b', '\x0c']

/-- Python `s.lstrip(set)`. -/
def lstripChars (s : String) (set : List Char) : String :=
  String.mk (s.data.dropWhile (fun c => set.contains c))

/-- Python `s.rstrip(set)`. -/
def rstripChars (s : String) (set : List Char) : String :=
  String.mk ((s.data.reverse.dropWhile (fun c => set.contains c)).reverse)

/-- Python `s.strip()`. -/
def pyStrip (s : String) : String :=
  rstripChars (lstripChars s pyWhitespace) pyWhitespace

/-- `response.text.strip().lstrip('```json').rstrip('```')` (app.py line 65). -/
def cleanGeminiText (t : String) : String :=
  rstripChars (lstripChars (pyStrip t) ['\x60', 'j', 's', 'o', 'n']) ['\x60']

/-! ### A model of `json.loads`

Recursive-descent parser for decoded JSON values, fuelled by the input
length (every recursive step consumes at least one character, so the fuel
never runs out on the initial call).  Model limitations, none of which is
exercised by a theorem below: `\uXXXX` string escapes, floats and exponent
notation are rejected rather than parsed. -/

/-- JSON insignificant whitespace. -/
def jsonWs (c : Char) : Bool := c == ' ' || c == '\t' || c == '\n' || c == '\r'

/-- Drop leading JSON whitespace. -/
def skipWs : List Char → List Char
  | [] => []
  | c :: cs => if jsonWs c then skipWs cs else c :: cs

/-- Parse the body of a JSON string (the opening quote already consumed). -/
def parseStrBody (fuel : Nat) (cs : List Char) (acc : List Char) :
    Option (String × List Char) :=
  match fuel, cs with
  | 0, _ => none
  | _, [] => none
  | fuel + 1, c :: cs =>
    if c == '"' then some (String.mk acc.reverse, cs)
    else if c == '\\' then
      match cs with
      | [] => none
      | e :: cs2 =>
        if e == '"' then parseStrBody fuel cs2 ('"' :: acc)
        else if e == '\\' then parseStrBody fuel cs2 ('\\' :: acc)
        else if e == '/' then parseStrBody fuel cs2 ('/' :: acc)
        else if e == 'n' then parseStrBody fuel cs2 ('\n' :: acc)
        else if e == 't' then parseStrBody fuel cs2 ('\t' :: acc)
        else if e == 'r' then parseStrBody fuel cs2 ('\r' :: acc)
        else if e == 'b' then parseStrBody fuel cs2 ('\x08' :: acc)
        else if e == 'f' then parseStrBody fuel cs2 ('\x0c' :: acc)
        else none
    else parseStrBody fuel cs (c :: acc)

/-- Digits to a natural number. -/
def digitsToNat (ds : List Char) : Nat :=
  ds.foldl (fun a c => a * 10 + (c.toNat - 48)) 0

/-- Parse a JSON integer. -/
def parseNum (cs : List Char) : Option (JVal × List Char) :=
  let p : Bool × List Char :=
    match cs with
    | c :: rest => if c == '-' then (true, rest) else (false, cs)
    | [] => (false, cs)
  let ds := p.2.takeWhile (fun c => c.isDigit)
  let rest := p.2.drop ds.length
  if ds.isEmpty then none
  else
    let n : Int := Int.ofNat (digitsToNat ds)
    some (JVal.num (if p.1 then -n else n), rest)

mutual

/-- Parse one JSON value (leading whitespace already skipped). -/
def parseVal (fuel : Nat) (cs : List Char) : Option (JVal × List Char) :=
  match fuel with
  | 0 => none
  | fuel + 1 =>
    match cs with
    | [] => none
    | c :: rest =>
      if c == '"' then
        match parseStrBody fuel rest [] with
        | some (s, r) => some (JVal.str s, r)
        | none => none
      else if c == '\x7b' then
        match skipWs rest with
        | '\x7d' :: r => some (JVal.obj [], r)
        | cs2 => parseMembers fuel cs2 []
      else if c == '[' then
        match skipWs rest with
        | ']' :: r => some (JVal.arr [], r)
        | cs2 => parseElements fuel cs2 []
      else if c == 't' then
        match rest with
        | 'r' :: 'u' :: 'e' :: r => some (JVal.bool true, r)
        | _ => none
      else if c == 'f' then
        match rest with
        | 'a' :: 'l' :: 's' :: 'e' :: r => some (JVal.bool false, r)
        | _ => none
      else if c == 'n' then
        match rest with
        | 'u' :: 'l' :: 'l' :: r => some (JVal.null, r)
        | _ => none
      else parseNum cs

/-- Parse the members of a JSON object, positioned at a key. -/
def parseMembers (fuel : Nat) (cs : List Char) (acc : List (String × JVal)) :
    Option (JVal × List Char) :=
  match fuel with
  | 0 => none
  | fuel + 1 =>
    match cs with
    | '"' :: rest =>
      match parseStrBody fuel rest [] with
      | none => none
      | some (k, r1) =>
        match skipWs r1 with
        | ':' :: r2 =>
          match parseVal fuel (skipWs r2) with
          | none => none
          | some (v, r3) =>
            match skipWs r3 with
            | ',' :: r4 => parseMembers fuel (skipWs r4) ((k, v) :: acc)
            | '\x7d' :: r4 => some (JVal.obj ((k, v) :: acc).reverse, r4)
            | _ => none
        | _ => none
    | _ => none

/-- Parse the elements of a JSON array, positioned at a value. -/
def parseElements (fuel : Nat) (cs : List Char) (acc : List JVal) :
    Option (JVal × List Char) :=
  match fuel with
  | 0 => none
  | fuel + 1 =>
    match parseVal fuel cs with
    | none => none
    | some (v, r1) =>
      match skipWs r1 with
      | ',' :: r2 => parseElements fuel (skipWs r2) (v :: acc)
      | ']' :: r2 => some (JVal.arr (v :: acc).reverse, r2)
      | _ => none

end

/-- `json.loads`: parse a complete JSON document, rejecting trailing data. -/
def json_loads (s : String) : Except String JVal :=
  match parseVal (s.length + 2) (skipWs s.data) with
  | some (v, rest) => if (skipWs rest).isEmpty then .ok v else .error "Extra data"
  | none => .error "Expecting value"

/-! ### The generative-text helper (`get_song_info_from_gemini`, app.py 33-77) -/

/-- Outcome of `gemini_client.models.generate_content(...)` (app.py line 57):
either a text reply, a reply whose `.text` is `None`, a raised
`google.genai.errors.APIError`, or any other raised exception. -/
inductive GenaiOutcome where
  | reply (text : String)
  | replyNone
  | apiError (msg : String)
  | otherExn (msg : String)

/-- `get_song_info_from_gemini(title, artist)` (app.py 33-77).  `clientUp`
says whether `gemini_client` was initialized; `g` is the model call's
outcome.  The title/artist arguments only feed the prompt, which is not
observable in any return value, so they are not parameters here.

The `import json` at line 63 sits INSIDE the `try`, after the model call at
line 57, and `import` in a function body makes `json` a local name.  When the
call raises a non-`APIError` exception, CPython evaluates the second handler
expression `json.JSONDecodeError` with the local `json` still unbound, which
raises an `UnboundLocalError` that escapes the function — the
`except Exception` handler at line 75 is never reached for such exceptions.
When the call returns but `.text` is `None`, the `AttributeError` from
`.strip()` at line 65 occurs after the import, so it IS caught at line 75. -/
def get_song_info_from_gemini (clientUp : Bool) (g : GenaiOutcome) :
    Except PyExn JVal :=
  if clientUp then
    match g with
    | .reply text =>
      match json_loads (cleanGeminiText text) with
      | .ok v => .ok v
      | .error _ =>
        .ok (JVal.obj [("lyrics", jstr "AI 回傳格式錯誤。"),
                       ("artist_info", jstr "AI 回傳格式錯誤。")])
    | .replyNone =>
      .ok (JVal.obj [("lyrics", jstr "未知錯誤。"), ("artist_info", jstr "未知錯誤。")])
    | .apiError m =>
      .ok (JVal.obj [("lyrics", jstr "Gemini API 呼叫失敗。"),
                     ("artist_info", jstr ("Gemini API 呼叫失敗。錯誤：" ++ m))])
    | .otherExn _ => .error (.unboundLocalError "json")
  else
    .ok (JVal.obj [("lyrics", jstr "AI 服務未啟動。"),
                   ("artist_info", jstr "AI 服務未啟動。")])

/-! ### The `/recognize` handler (`recognize_endpoint`, app.py 85-157) -/

/-- Outcome of `requests.post(url, data=data, files=files)` (app.py 105):
either a response with an HTTP status code and a decoded JSON body, or a
raised exception (connection errors, or a body `.json()` cannot decode). -/
inductive AuddOutcome where
  | response (httpStatus : Nat) (body : JVal)
  | exn (e : PyExn)

/-- The inputs determining one request's handling. -/
structure RecognizeInput where
  hasAudioFile : Bool
  audd : AuddOutcome
  geminiClientUp : Bool
  gemini : GenaiOutcome

/-- What the handler returns: the JSON body, the HTTP status code, and
whether each external service was actually called. -/
structure RecResult where
  body : JVal
  code : Nat
  calledAudd : Bool
  calledGemini : Bool

/-- `jsonify({"status": "fail", "message": msg})`. -/
def failBody (msg : String) : JVal :=
  JVal.obj [("status", jstr "fail"), ("message", jstr msg)]

/-- `jsonify({"status": "error", "message": msg})`. -/
def errorBody (msg : String) : JVal :=
  JVal.obj [("status", jstr "error"), ("message", jstr msg)]

/-- The fixed no-match message (app.py 122). -/
def noMatchMsg : String := "無法辨識：成功連線至 Audd.io，但無法在資料庫中找到匹配的音樂。"

/-- `result.get("status") == "error"` (app.py 110).  Decoded JSON values
other than the string `"error"` never compare equal to it in Python. -/
def statusIsError (kvs : List (String × JVal)) : Bool :=
  match dictGet kvs "status" with
  | some (.str s) => s == "error"
  | _ => false

/-- The `status == "error"` branch (app.py 110-116):
`error_info = result.get("error", {})`, then the fail message is built from
`error_info.get('error_code', 'N/A')` and
`error_info.get("error_message", ...)`.  If the `error` entry is present but
not a dict, `.get` raises `AttributeError`. -/
def serviceError (kvs : List (String × JVal)) : Except PyExn (JVal × Nat) :=
  match (dictGet kvs "error").getD (JVal.obj []) with
  | .obj ekvs =>
    let error_message := (dictGet ekvs "error_message").getD
      (jstr "Audd.io 回傳了未知的錯誤訊息。")
    let codeV := (dictGet ekvs "error_code").getD (jstr "N/A")
    .ok (failBody ("服務錯誤 (" ++ pyStrOf codeV ++ ")：" ++ pyStrOf error_message), 200)
  | _ => .error (.attributeError "object has no attribute get")

/-- One `if r.get(field):` guard plus its link extraction (app.py 134-141).
`r[field]` equals the guarded value because a truthy `r.get(field)` implies
the key is present. -/
def linkEntry (rkvs : List (String × JVal)) (field : String) (path : List String)
    (display : String) : Except PyExn (Option (String × JVal)) :=
  if truthy ((dictGet rkvs field).getD JVal.null) then
    match getPath ((dictGet rkvs field).getD JVal.null) path with
    | .ok u => .ok (some (display, u))
    | .error e => .error e
  else .ok none

/-- The `links` dict (app.py 133-141): the four platform guards in source
order. -/
def buildLinks (rkvs : List (String × JVal)) :
    Except PyExn (List (String × JVal)) := do
  let l1 ← linkEntry rkvs "spotify" ["external_urls", "spotify"] "Spotify"
  let l2 ← linkEntry rkvs "youtube" ["url"] "YouTube Music"
  let l3 ← linkEntry rkvs "apple_music" ["url"] "Apple Music"
  let l4 ← linkEntry rkvs "deezer" ["link"] "Deezer"
  pure (l1.toList ++ l2.toList ++ l3.toList ++ l4.toList)

/-- The match branch (app.py 125-152): extract title/artist, call the
generative-text helper, build the links, then assemble the success payload.
`gemini_data.get(...)` at lines 150-151 raises `AttributeError` when the
parsed reply is not a dict.  The second component records whether
`generate_content` was actually invoked (it is iff the client was
initialized). -/
def matchBranch (rkvs : List (String × JVal)) (clientUp : Bool) (g : GenaiOutcome) :
    Except PyExn (JVal × Nat) × Bool :=
  let title := (dictGet rkvs "title").getD .null
  let artist := (dictGet rkvs "artist").getD .null
  match get_song_info_from_gemini clientUp g with
  | .error e => (.error e, clientUp)
  | .ok gemini_data =>
    match buildLinks rkvs with
    | .error e => (.error e, clientUp)
    | .ok links =>
      match gemini_data with
      | .obj gkvs =>
        (.ok (JVal.obj [("status", jstr "success"),
                        ("title", title),
                        ("artist", artist),
                        ("album", (dictGet rkvs "album").getD .null),
                        ("links", JVal.obj links),
                        ("lyrics", (dictGet gkvs "lyrics").getD (jstr "未能獲取歌詞。")),
                        ("artist_info",
                          (dictGet gkvs "artist_info").getD (jstr "未能獲取歌手簡介。"))],
              200), clientUp)
      | _ => (.error (.attributeError "object has no attribute get"), clientUp)

/-- Handling of the decoded fingerprinting body (app.py 110-152).
`result.get(...)` raises `AttributeError` when the body is not a dict;
`if not result.get("result"):` takes the no-match branch when `result` is
absent or falsy; `r.get('title')` raises when the match record is not a
dict. -/
def bodySteps (body : JVal) (clientUp : Bool) (g : GenaiOutcome) :
    Except PyExn (JVal × Nat) × Bool :=
  match body with
  | .obj kvs =>
    if statusIsError kvs then (serviceError kvs, false)
    else
      match dictGet kvs "result" with
      | none => (.ok (failBody noMatchMsg, 200), false)
      | some r =>
        if truthy r then
          match r with
          | .obj rkvs => matchBranch rkvs clientUp g
          | _ => (.error (.attributeError "object has no attribute get"), false)
        else (.ok (failBody noMatchMsg, 200), false)
  | _ => (.error (.attributeError "object has no attribute get"), false)

/-- The handler's `try` block (app.py 103-152): the fingerprinting call, then
`raise_for_status()` — which raises `HTTPError` exactly for status codes in
[400, 600) — then the body handling. -/
def tryBlock (audd : AuddOutcome) (clientUp : Bool) (g : GenaiOutcome) :
    Except PyExn (JVal × Nat) × Bool :=
  match audd with
  | .exn e => (.error e, false)
  | .response status body =>
    if 400 ≤ status ∧ status < 600 then (.error (.httpError status), false)
    else bodySteps body clientUp g

/-- `recognize_endpoint` (app.py 85-157): the missing-file check at 89-90
runs before the `try`; the `except` clauses at 154-157 catch `HTTPError`
first, then any `Exception`. -/
def recognize_endpoint (inp : RecognizeInput) : RecResult :=
  if inp.hasAudioFile then
    match tryBlock inp.audd inp.geminiClientUp inp.gemini with
    | (.ok (b, c), called) => ⟨b, c, true, called⟩
    | (.error (.httpError code), called) =>
        ⟨errorBody ("HTTP 連線錯誤：" ++ toString code), 500, true, called⟩
    | (.error e, called) =>
        ⟨errorBody ("後端未知錯誤：" ++ exnStr e), 500, true, called⟩
  else ⟨errorBody "未找到音訊檔案。", 400, false, false⟩

/-- Field access in a returned JSON body. -/
def bodyField (r : RecResult) (k : String) : Option JVal :=
  match r.body with
  | .obj kvs => dictGet kvs k
  | _ => none

/-! ### Helper lemmas -/

/-- A 200-status fingerprinting response passes `raise_for_status()`. -/
theorem tryBlock_response200 (body : JVal) (clientUp : Bool) (g : GenaiOutcome) :
    tryBlock (.response 200 body) clientUp g = bodySteps body clientUp g := by
  show (if 400 ≤ 200 ∧ 200 < 600 then (Except.error (PyExn.httpError 200), false)
        else bodySteps body clientUp g) = bodySteps body clientUp g
  rw [if_neg (by omega)]

/-- Whenever the `try` block raises, the handler answers HTTP 500 with a
`status=error` body. -/
theorem tryBlock_error_to_500 (inp : RecognizeInput) (e : PyExn)
    (hfile : inp.hasAudioFile = true)
    (h : (tryBlock inp.audd inp.geminiClientUp inp.gemini).1 = .error e) :
    (recognize_endpoint inp).code = 500 ∧
    bodyField (recognize_endpoint inp) "status" = some (jstr "error") := by
  unfold recognize_endpoint
  rw [hfile]
  rcases htb : tryBlock inp.audd inp.geminiClientUp inp.gemini with ⟨res, called⟩
  rw [htb] at h
  simp only at h
  subst h
  cases e <;> exact ⟨rfl, rfl⟩

/-- The Boolean value of one platform guard `if r.get(field):` (app.py
134-140). -/
def platTruthy (rkvs : List (String × JVal)) (field : String) : Bool :=
  truthy ((dictGet rkvs field).getD JVal.null)

/-- The platform field is truthy but its nested link lookup raises. -/
def platformBroken (rkvs : List (String × JVal)) (field : String)
    (path : List String) : Prop :=
  platTruthy rkvs field = true ∧
    ∃ e, getPath ((dictGet rkvs field).getD JVal.null) path = .error e

/-- A successful guarded extraction contributes its display name exactly when
the guard is truthy. -/
theorem linkEntry_shape (rkvs : List (String × JVal)) (field : String)
    (path : List String) (display : String) (o : Option (String × JVal))
    (h : linkEntry rkvs field path display = .ok o) :
    o.toList.map Prod.fst = if platTruthy rkvs field then [display] else [] := by
  unfold linkEntry at h
  unfold platTruthy
  cases ht : truthy ((dictGet rkvs field).getD JVal.null) with
  | false =>
    rw [ht] at h
    simp only [Bool.false_eq_true, if_false] at h ⊢
    cases h
    rfl
  | true =>
    rw [ht] at h
    simp only [if_true] at h ⊢
    cases hg : getPath ((dictGet rkvs field).getD JVal.null) path with
    | ok u => rw [hg] at h; cases h; rfl
    | error e => rw [hg] at h; cases h

/-- A broken platform makes its guarded extraction raise. -/
theorem linkEntry_error_of_broken (rkvs : List (String × JVal)) (field : String)
    (path : List String) (display : String)
    (h : platformBroken rkvs field path) :
    ∃ e, linkEntry rkvs field path display = .error e := by
  obtain ⟨ht, e, hp⟩ := h
  unfold platTruthy at ht
  refine ⟨e, ?_⟩
  unfold linkEntry
  rw [ht]
  simp only [if_true]
  rw [hp]

/-- If any platform guard's extraction raises, the whole `links` construction
raises. -/
theorem buildLinks_error_of_broken (rkvs : List (String × JVal))
    (h : platformBroken rkvs "spotify" ["external_urls", "spotify"] ∨
         platformBroken rkvs "youtube" ["url"] ∨
         platformBroken rkvs "apple_music" ["url"] ∨
         platformBroken rkvs "deezer" ["link"]) :
    ∃ e, buildLinks rkvs = .error e := by
  cases h1 : linkEntry rkvs "spotify" ["external_urls", "spotify"] "Spotify" with
  | error e => exact ⟨e, by simp [buildLinks, h1, Except.bind, bind, Functor.map, Except.map]⟩
  | ok o1 =>
  cases h2 : linkEntry rkvs "youtube" ["url"] "YouTube Music" with
  | error e => exact ⟨e, by simp [buildLinks, h1, h2, Except.bind, bind, Functor.map, Except.map]⟩
  | ok o2 =>
  cases h3 : linkEntry rkvs "apple_music" ["url"] "Apple Music" with
  | error e => exact ⟨e, by simp [buildLinks, h1, h2, h3, Except.bind, bind, Functor.map, Except.map]⟩
  | ok o3 =>
  cases h4 : linkEntry rkvs "deezer" ["link"] "Deezer" with
  | error e => exact ⟨e, by simp [buildLinks, h1, h2, h3, h4, Except.bind, bind, Functor.map, Except.map]⟩
  | ok o4 =>
  exfalso
  rcases h with hb | hb | hb | hb
  · obtain ⟨e, he⟩ := linkEntry_error_of_broken rkvs "spotify" _ "Spotify" hb
    simp [h1] at he
  · obtain ⟨e, he⟩ := linkEntry_error_of_broken rkvs "youtube" _ "YouTube Music" hb
    simp [h2] at he
  · obtain ⟨e, he⟩ := linkEntry_error_of_broken rkvs "apple_music" _ "Apple Music" hb
    simp [h3] at he
  · obtain ⟨e, he⟩ := linkEntry_error_of_broken rkvs "deezer" _ "Deezer" hb
    simp [h4] at he

/-- Shape of the handler's answer on the full success path: fingerprinting
returned 200 with a matched record, the enrichment helper returned a parsed
dict, and every present platform link extracted cleanly. -/
theorem recognize_success_shape
    (kvs rkvs gkvs links : List (String × JVal))
    (clientUp : Bool) (g : GenaiOutcome)
    (hst : statusIsError kvs = false)
    (hres : dictGet kvs "result" = some (JVal.obj rkvs))
    (hne : truthy (JVal.obj rkvs) = true)
    (hg : get_song_info_from_gemini clientUp g = .ok (JVal.obj gkvs))
    (hl : buildLinks rkvs = .ok links) :
    recognize_endpoint ⟨true, .response 200 (JVal.obj kvs), clientUp, g⟩ =
      ⟨JVal.obj [("status", jstr "success"),
                 ("title", (dictGet rkvs "title").getD .null),
                 ("artist", (dictGet rkvs "artist").getD .null),
                 ("album", (dictGet rkvs "album").getD .null),
                 ("links", JVal.obj links),
                 ("lyrics", (dictGet gkvs "lyrics").getD (jstr "未能獲取歌詞。")),
                 ("artist_info",
                   (dictGet gkvs "artist_info").getD (jstr "未能獲取歌手簡介。"))],
        200, true, clientUp⟩ := by
  have h2 : bodySteps (JVal.obj kvs) clientUp g = matchBranch rkvs clientUp g := by
    unfold bodySteps
    simp only [hst, hres, hne, Bool.false_eq_true, if_false, if_true]
  have h3 : matchBranch rkvs clientUp g =
      (.ok (JVal.obj [("status", jstr "success"),
                      ("title", (dictGet rkvs "title").getD .null),
                      ("artist", (dictGet rkvs "artist").getD .null),
                      ("album", (dictGet rkvs "album").getD .null),
                      ("links", JVal.obj links),
                      ("lyrics", (dictGet gkvs "lyrics").getD (jstr "未能獲取歌詞。")),
                      ("artist_info",
                        (dictGet gkvs "artist_info").getD (jstr "未能獲取歌手簡介。"))],
            200), clientUp) := by
    unfold matchBranch
    rw [hg, hl]
  unfold recognize_endpoint
  rw [show (⟨true, .response 200 (JVal.obj kvs), clientUp, g⟩ :
        RecognizeInput).hasAudioFile = true from rfl]
  rw [if_pos rfl]
  rw [show (⟨true, .response 200 (JVal.obj kvs), clientUp, g⟩ :
        RecognizeInput).audd = .response 200 (JVal.obj kvs) from rfl]
  rw [tryBlock_response200, h2, h3]

/-- Unfolding of the handler on a request that does carry a file. -/
theorem recognize_run (a : AuddOutcome) (c : Bool) (g : GenaiOutcome) :
    recognize_endpoint ⟨true, a, c, g⟩ =
      match tryBlock a c g with
      | (.ok (b, cd), called) => ⟨b, cd, true, called⟩
      | (.error (.httpError code), called) =>
          ⟨errorBody ("HTTP 連線錯誤：" ++ toString code), 500, true, called⟩
      | (.error e, called) =>
          ⟨errorBody ("後端未知錯誤：" ++ exnStr e), 500, true, called⟩ := rfl

/-! ### The claims -/

/-- Claim C1 (refuted; the spec states the intent, the code slips).  The
claim says every failure of the enrichment path — including the model call
raising an exception — degrades to placeholder text with HTTP 200 and
status=success.  The code does so for a missing client, an `APIError` and an
unparsable reply, but when `generate_content` raises any non-`APIError`
exception, matching `except json.JSONDecodeError` evaluates the still-unbound
local `json` (its `import` at line 63 runs only later in the `try`), so an
`UnboundLocalError` escapes `get_song_info_from_gemini` and the request ends
in HTTP 500 with status=error — an enrichment failure escalating to a
request-level error, which the `except Exception` handler at line 75 was
plainly meant to prevent.  This theorem evaluates the handler at such a
failing input: a successful fingerprint match whose enrichment call raises a
non-`APIError` exception. -/
theorem claimC1_model_call_exception_escalates :
    recognize_endpoint ⟨true, .response 200 (JVal.obj
        [("status", jstr "success"),
         ("result", JVal.obj [("title", jstr "T"), ("artist", jstr "A")])]),
      true, .otherExn "connection reset"⟩ =
      ⟨errorBody ("後端未知錯誤：cannot access local variable json where it is not associated with a value"),
        500, true, true⟩ := rfl

/-- Claim C2: any exception raised inside the handler's `try` block that is
not the expected `HTTPError` is caught by the top-level `except Exception`
and reported as a JSON `status=error` body with HTTP 500 carrying
`str(e)`; no such exception escapes the handler. -/
theorem claimC2_top_level_catch (inp : RecognizeInput) (e : PyExn)
    (hfile : inp.hasAudioFile = true)
    (htry : (tryBlock inp.audd inp.geminiClientUp inp.gemini).1 = .error e)
    (hnh : isHttpExn e = false) :
    (recognize_endpoint inp).body = errorBody ("後端未知錯誤：" ++ exnStr e) ∧
    (recognize_endpoint inp).code = 500 := by
  unfold recognize_endpoint
  rw [hfile]
  rcases htb : tryBlock inp.audd inp.geminiClientUp inp.gemini with ⟨res, called⟩
  rw [htb] at htry
  simp only at htry
  subst htry
  cases e with
  | httpError c => simp [isHttpExn] at hnh
  | keyError k => exact ⟨rfl, rfl⟩
  | typeError m => exact ⟨rfl, rfl⟩
  | attributeError m => exact ⟨rfl, rfl⟩
  | unboundLocalError n => exact ⟨rfl, rfl⟩

/-- Witness for C2 at a concrete request whose fingerprinting call raises an
`AttributeError`. -/
theorem claimC2_witness :
    (recognize_endpoint ⟨true, .exn (.attributeError "boom"), true, .replyNone⟩).body =
      errorBody "後端未知錯誤：boom" ∧
    (recognize_endpoint ⟨true, .exn (.attributeError "boom"), true, .replyNone⟩).code = 500 :=
  claimC2_top_level_catch ⟨true, .exn (.attributeError "boom"), true, .replyNone⟩
    (.attributeError "boom") rfl rfl rfl

/-- Claim C3: a reply of `` ```json {"lyrics":"L","artist_info":"A"} ``` ``
has its code fence stripped and parses to exactly the mapping
`lyrics ↦ L, artist_info ↦ A`. -/
theorem claimC3_code_fence_stripped :
    get_song_info_from_gemini true
        (.reply "```json \x7b\"lyrics\":\"L\",\"artist_info\":\"A\"\x7d ```") =
      .ok (JVal.obj [("lyrics", jstr "L"), ("artist_info", jstr "A")]) := rfl

/-- Claim C7: a fingerprinting response with a transport-level HTTP error
status (the [400, 600) range that `raise_for_status()` raises on) makes the
endpoint answer HTTP 500, status=error, with the upstream status code in the
message. -/
theorem claimC7_http_error_500 (s : Nat) (body : JVal) (c : Bool) (g : GenaiOutcome)
    (h4 : 400 ≤ s) (h6 : s < 600) :
    recognize_endpoint ⟨true, .response s body, c, g⟩ =
      ⟨errorBody ("HTTP 連線錯誤：" ++ toString s), 500, true, false⟩ := by
  have ht : tryBlock (.response s body) c g = (.error (.httpError s), false) := by
    show (if 400 ≤ s ∧ s < 600 then (Except.error (PyExn.httpError s), false)
          else bodySteps body c g) = _
    rw [if_pos ⟨h4, h6⟩]
  rw [recognize_run, ht]

/-- Witness for C7 at upstream status 503. -/
theorem claimC7_witness :
    recognize_endpoint ⟨true, .response 503 JVal.null, true, .replyNone⟩ =
      ⟨errorBody "HTTP 連線錯誤：503", 500, true, false⟩ :=
  claimC7_http_error_500 503 JVal.null true .replyNone (by decide) (by decide)

/-- Claim C8: a request without an `audio_file` field is answered HTTP 400
with status=error before either external service is called. -/
theorem claimC8_missing_file_400 (a : AuddOutcome) (c : Bool) (g : GenaiOutcome) :
    recognize_endpoint ⟨false, a, c, g⟩ =
      ⟨errorBody "未找到音訊檔案。", 400, false, false⟩ := rfl

/-- Claim C5: a fingerprinting body carrying the service-level error marker
(`status == "error"`) with an error record holding a code and a message is
answered HTTP 200, status=fail, with a message built from — and containing —
that code and message. -/
theorem claimC5_service_error_fail (kvs ekvs : List (String × JVal)) (c : Int)
    (m : String) (cl : Bool) (g : GenaiOutcome)
    (hst : statusIsError kvs = true)
    (herr : dictGet kvs "error" = some (JVal.obj ekvs))
    (hc : dictGet ekvs "error_code" = some (JVal.num c))
    (hm : dictGet ekvs "error_message" = some (jstr m)) :
    recognize_endpoint ⟨true, .response 200 (JVal.obj kvs), cl, g⟩ =
      ⟨failBody ("服務錯誤 (" ++ toString c ++ ")：" ++ m), 200, true, false⟩ ∧
    (∃ a b, "服務錯誤 (" ++ toString c ++ ")：" ++ m = a ++ toString c ++ b) ∧
    (∃ a b, "服務錯誤 (" ++ toString c ++ ")：" ++ m = a ++ m ++ b) := by
  refine ⟨?_, ⟨"服務錯誤 (", ")：" ++ m, by rw [String.append_assoc]⟩,
          ⟨"服務錯誤 (" ++ toString c ++ ")：", "", by rw [String.append_empty]⟩⟩
  have hse : serviceError kvs =
      .ok (failBody ("服務錯誤 (" ++ toString c ++ ")：" ++ m), 200) := by
    unfold serviceError
    rw [herr]
    simp only [Option.getD_some]
    rw [hm, hc]
    simp only [Option.getD_some]
    rfl
  have hb : bodySteps (JVal.obj kvs) cl g = (serviceError kvs, false) := by
    unfold bodySteps
    simp only [hst, if_true]
  rw [recognize_run, tryBlock_response200, hb, hse]

/-- Witness for C5 at a concrete upstream error body (code 300). -/
theorem claimC5_witness :
    recognize_endpoint ⟨true, .response 200 (JVal.obj
        [("status", jstr "error"),
         ("error", JVal.obj [("error_code", JVal.num 300),
                             ("error_message", jstr "token missing")])]),
      true, .replyNone⟩ =
      ⟨failBody "服務錯誤 (300)：token missing", 200, true, false⟩ ∧
    (∃ a b, "服務錯誤 (300)：token missing" = a ++ toString (300 : Int) ++ b) ∧
    (∃ a b, "服務錯誤 (300)：token missing" = a ++ "token missing" ++ b) :=
  claimC5_service_error_fail
    [("status", jstr "error"),
     ("error", JVal.obj [("error_code", JVal.num 300),
                         ("error_message", jstr "token missing")])]
    [("error_code", JVal.num 300), ("error_message", jstr "token missing")]
    300 "token missing" true .replyNone rfl rfl rfl rfl

/-- Claim C6 is refuted as stated: the quantifier covers every body with no
(truthy) `result`, but a body that also carries `status == "error"` takes the
service-error branch first and yields a different message than the fixed
no-match one.  Concretely, the body `{"status": "error"}` has no `result`
key yet is answered with the service-error message. -/
theorem claimC6_counterexample :
    dictGet [("status", jstr "error")] "result" = none ∧
    recognize_endpoint ⟨true, .response 200 (JVal.obj [("status", jstr "error")]),
        true, .replyNone⟩ =
      ⟨failBody "服務錯誤 (N/A)：Audd.io 回傳了未知的錯誤訊息。", 200, true, false⟩ ∧
    "服務錯誤 (N/A)：Audd.io 回傳了未知的錯誤訊息。" ≠ noMatchMsg :=
  ⟨rfl, rfl, by decide⟩

/-- Claim C6 as amended: a fingerprinting body that does NOT carry the
service-level error marker and has no truthy `result` entry is answered
HTTP 200, status=fail, with the fixed no-match message. -/
theorem claimC6_no_match_fail (kvs : List (String × JVal)) (cl : Bool)
    (g : GenaiOutcome)
    (hst : statusIsError kvs = false)
    (hres : truthyO (dictGet kvs "result") = false) :
    recognize_endpoint ⟨true, .response 200 (JVal.obj kvs), cl, g⟩ =
      ⟨failBody noMatchMsg, 200, true, false⟩ := by
  have hb : bodySteps (JVal.obj kvs) cl g = (.ok (failBody noMatchMsg, 200), false) := by
    unfold bodySteps
    simp only [hst, Bool.false_eq_true, if_false]
    cases hd : dictGet kvs "result" with
    | none => rfl
    | some v =>
      rw [hd] at hres
      simp only [truthyO] at hres
      simp only [hres, Bool.false_eq_true, if_false]
  rw [recognize_run, tryBlock_response200, hb]

/-- Witness for the amended C6 at the body `{"status": "success"}`. -/
theorem claimC6_witness :
    recognize_endpoint ⟨true, .response 200 (JVal.obj [("status", jstr "success")]),
        true, .replyNone⟩ =
      ⟨failBody noMatchMsg, 200, true, false⟩ :=
  claimC6_no_match_fail [("status", jstr "success")] true .replyNone rfl rfl

/-- Claim C4 is refuted as stated: it ties link inclusion to the FIELD BEING
PRESENT, but the code guards each platform with Python truthiness
(`if r.get(field):`).  A match record whose `spotify` field is present with
the (falsy) value `null` yields a `links` mapping that omits Spotify. -/
theorem claimC4_counterexample :
    dictGet [("spotify", JVal.null)] "spotify" = some JVal.null ∧
    buildLinks [("spotify", JVal.null)] = .ok [] :=
  ⟨rfl, rfl⟩

/-- Claim C4 as amended: whenever link building succeeds, each platform link
is included exactly when the corresponding field is present WITH A TRUTHY
VALUE, each platform guarded independently, and the mapping's keys are
exactly the truthy platforms among the four names in source order. -/
theorem claimC4_links_iff_truthy (rkvs links : List (String × JVal))
    (h : buildLinks rkvs = .ok links) :
    links.map Prod.fst =
      (if platTruthy rkvs "spotify" then ["Spotify"] else []) ++
      (if platTruthy rkvs "youtube" then ["YouTube Music"] else []) ++
      (if platTruthy rkvs "apple_music" then ["Apple Music"] else []) ++
      (if platTruthy rkvs "deezer" then ["Deezer"] else []) := by
  cases h1 : linkEntry rkvs "spotify" ["external_urls", "spotify"] "Spotify" with
  | error e => rw [buildLinks, h1] at h; cases h
  | ok o1 =>
  cases h2 : linkEntry rkvs "youtube" ["url"] "YouTube Music" with
  | error e => rw [buildLinks, h1, h2] at h; cases h
  | ok o2 =>
  cases h3 : linkEntry rkvs "apple_music" ["url"] "Apple Music" with
  | error e => rw [buildLinks, h1, h2, h3] at h; cases h
  | ok o3 =>
  cases h4 : linkEntry rkvs "deezer" ["link"] "Deezer" with
  | error e => rw [buildLinks, h1, h2, h3, h4] at h; cases h
  | ok o4 =>
  have hl : links = o1.toList ++ o2.toList ++ o3.toList ++ o4.toList := by
    rw [buildLinks, h1, h2, h3, h4] at h
    simp only [Except.bind, bind, pure, Except.pure, Except.ok.injEq] at h
    exact h.symm
  subst hl
  simp only [List.map_append, List.append_assoc]
  rw [linkEntry_shape rkvs "spotify" ["external_urls", "spotify"] "Spotify" o1 h1,
      linkEntry_shape rkvs "youtube" ["url"] "YouTube Music" o2 h2,
      linkEntry_shape rkvs "apple_music" ["url"] "Apple Music" o3 h3,
      linkEntry_shape rkvs "deezer" ["link"] "Deezer" o4 h4]

/-- Witness for the amended C4: a record with truthy, well-formed `spotify`
and `apple_music` fields and no `youtube` field yields exactly the keys
Spotify and Apple Music — "YouTube Music" is omitted while every other
present platform is kept. -/
theorem claimC4_witness :
    ([("Spotify", jstr "su"), ("Apple Music", jstr "au")] :
        List (String × JVal)).map Prod.fst =
      (if platTruthy [("spotify", JVal.obj [("external_urls",
            JVal.obj [("spotify", jstr "su")])]),
          ("apple_music", JVal.obj [("url", jstr "au")])] "spotify"
        then ["Spotify"] else []) ++
      (if platTruthy [("spotify", JVal.obj [("external_urls",
            JVal.obj [("spotify", jstr "su")])]),
          ("apple_music", JVal.obj [("url", jstr "au")])] "youtube"
        then ["YouTube Music"] else []) ++
      (if platTruthy [("spotify", JVal.obj [("external_urls",
            JVal.obj [("spotify", jstr "su")])]),
          ("apple_music", JVal.obj [("url", jstr "au")])] "apple_music"
        then ["Apple Music"] else []) ++
      (if platTruthy [("spotify", JVal.obj [("external_urls",
            JVal.obj [("spotify", jstr "su")])]),
          ("apple_music", JVal.obj [("url", jstr "au")])] "deezer"
        then ["Deezer"] else []) :=
  claimC4_links_iff_truthy
    [("spotify", JVal.obj [("external_urls", JVal.obj [("spotify", jstr "su")])]),
     ("apple_music", JVal.obj [("url", jstr "au")])]
    [("Spotify", jstr "su"), ("Apple Music", jstr "au")] rfl

/-- Claim C9: a matched record with a truthy platform field whose nested
link lookup fails (e.g. a truthy `spotify` lacking
`external_urls`/`spotify`, or a truthy `youtube`, `apple_music` or `deezer`
lacking its link key) makes link extraction raise, and the request is
answered HTTP 500 with status=error instead of a success payload that
merely omits that link. -/
theorem claimC9_broken_link_500 (kvs rkvs : List (String × JVal)) (cl : Bool)
    (g : GenaiOutcome) (gd : JVal)
    (hst : statusIsError kvs = false)
    (hres : dictGet kvs "result" = some (JVal.obj rkvs))
    (hne : truthy (JVal.obj rkvs) = true)
    (hg : get_song_info_from_gemini cl g = .ok gd)
    (hbrk : platformBroken rkvs "spotify" ["external_urls", "spotify"] ∨
            platformBroken rkvs "youtube" ["url"] ∨
            platformBroken rkvs "apple_music" ["url"] ∨
            platformBroken rkvs "deezer" ["link"]) :
    (recognize_endpoint ⟨true, .response 200 (JVal.obj kvs), cl, g⟩).code = 500 ∧
    bodyField (recognize_endpoint ⟨true, .response 200 (JVal.obj kvs), cl, g⟩)
        "status" = some (jstr "error") := by
  obtain ⟨e, hbl⟩ := buildLinks_error_of_broken rkvs hbrk
  apply tryBlock_error_to_500 _ e rfl
  show (tryBlock (.response 200 (JVal.obj kvs)) cl g).1 = .error e
  rw [tryBlock_response200]
  have hb : bodySteps (JVal.obj kvs) cl g = matchBranch rkvs cl g := by
    unfold bodySteps
    simp only [hst, Bool.false_eq_true, if_false, hres, hne, if_true]
  rw [hb]
  unfold matchBranch
  rw [hg, hbl]

/-- Witness for C9: a truthy `spotify` entry without `external_urls`. -/
theorem claimC9_witness :
    (recognize_endpoint ⟨true, .response 200 (JVal.obj
        [("result", JVal.obj [("spotify", JVal.obj [("x", JVal.null)])])]),
      false, .replyNone⟩).code = 500 ∧
    bodyField (recognize_endpoint ⟨true, .response 200 (JVal.obj
        [("result", JVal.obj [("spotify", JVal.obj [("x", JVal.null)])])]),
      false, .replyNone⟩) "status" = some (jstr "error") :=
  claimC9_broken_link_500
    [("result", JVal.obj [("spotify", JVal.obj [("x", JVal.null)])])]
    [("spotify", JVal.obj [("x", JVal.null)])] false .replyNone
    (JVal.obj [("lyrics", jstr "AI 服務未啟動。"), ("artist_info", jstr "AI 服務未啟動。")])
    rfl rfl rfl rfl (Or.inl ⟨rfl, ⟨.keyError "external_urls", rfl⟩⟩)

/-- Claim C10: on the success path, when the parsed enrichment reply is a
JSON object lacking the `lyrics` key (resp. the `artist_info` key), the
success payload substitutes the fixed fallback string of that field — the
two fallbacks being distinct and non-empty — while the endpoint still
answers HTTP 200, status=success. -/
theorem claimC10_missing_enrichment_keys
    (kvs rkvs gkvs links : List (String × JVal)) (cl : Bool) (g : GenaiOutcome)
    (hst : statusIsError kvs = false)
    (hres : dictGet kvs "result" = some (JVal.obj rkvs))
    (hne : truthy (JVal.obj rkvs) = true)
    (hg : get_song_info_from_gemini cl g = .ok (JVal.obj gkvs))
    (hl : buildLinks rkvs = .ok links) :
    (dictGet gkvs "lyrics" = none →
      bodyField (recognize_endpoint ⟨true, .response 200 (JVal.obj kvs), cl, g⟩)
          "lyrics" = some (jstr "未能獲取歌詞。")) ∧
    (dictGet gkvs "artist_info" = none →
      bodyField (recognize_endpoint ⟨true, .response 200 (JVal.obj kvs), cl, g⟩)
          "artist_info" = some (jstr "未能獲取歌手簡介。")) ∧
    bodyField (recognize_endpoint ⟨true, .response 200 (JVal.obj kvs), cl, g⟩)
        "status" = some (jstr "success") ∧
    (recognize_endpoint ⟨true, .response 200 (JVal.obj kvs), cl, g⟩).code = 200 ∧
    ("未能獲取歌詞。" : String) ≠ "未能獲取歌手簡介。" ∧
    ("未能獲取歌詞。" : String) ≠ "" ∧ ("未能獲取歌手簡介。" : String) ≠ "" := by
  have hs := recognize_success_shape kvs rkvs gkvs links cl g hst hres hne hg hl
  refine ⟨?_, ?_, ?_, ?_, by decide, by decide, by decide⟩
  · intro hly
    rw [hs, bodyField]
    simp only [hly, Option.getD_none]
    rfl
  · intro hai
    rw [hs, bodyField]
    simp only [hai, Option.getD_none]
    rfl
  · rw [hs, bodyField]
    rfl
  · rw [hs]

/-- Witness for C10: the enrichment reply parses to the empty JSON object,
so both keys are missing and both fallbacks appear in a 200/success
answer. -/
theorem claimC10_witness :
    (dictGet ([] : List (String × JVal)) "lyrics" = none →
      bodyField (recognize_endpoint ⟨true, .response 200 (JVal.obj
          [("result", JVal.obj [("title", jstr "T")])]), true, .reply "\x7b\x7d"⟩)
          "lyrics" = some (jstr "未能獲取歌詞。")) ∧
    (dictGet ([] : List (String × JVal)) "artist_info" = none →
      bodyField (recognize_endpoint ⟨true, .response 200 (JVal.obj
          [("result", JVal.obj [("title", jstr "T")])]), true, .reply "\x7b\x7d"⟩)
          "artist_info" = some (jstr "未能獲取歌手簡介。")) ∧
    bodyField (recognize_endpoint ⟨true, .response 200 (JVal.obj
        [("result", JVal.obj [("title", jstr "T")])]), true, .reply "\x7b\x7d"⟩)
        "status" = some (jstr "success") ∧
    (recognize_endpoint ⟨true, .response 200 (JVal.obj
        [("result", JVal.obj [("title", jstr "T")])]), true, .reply "\x7b\x7d"⟩).code = 200 ∧
    ("未能獲取歌詞。" : String) ≠ "未能獲取歌手簡介。" ∧
    ("未能獲取歌詞。" : String) ≠ "" ∧ ("未能獲取歌手簡介。" : String) ≠ "" :=
  claimC10_missing_enrichment_keys
    [("result", JVal.obj [("title", jstr "T")])] [("title", jstr "T")] [] []
    true (.reply "\x7b\x7d") rfl rfl rfl rfl rfl
